import Mathlib

/-!
Shallow embedding of `indivo/lib/query.py` (the fact-query engine of the
indivo_server repository): the `FactQuery` session object, its staged query
pipeline (filter, group, aggregate, order, paginate) and its continuation-URL
computation, together with proofs settling the frozen claims about it.

Conventions used throughout:
* Python `dict`s are embedded as insertion-ordered association lists with
  last-write-wins assignment (`dictInsert`).
* Python exceptions are embedded as `Except QueryErr`, one constructor per
  raise site, carrying the data the source interpolates into the message.
* Django QuerySets are embedded as explicit result-set values; laziness is
  immaterial to the claims, so every stage is a total function over them.
* External collaborators that are not part of this repository source
  (the carenet row filter from `sharing_utils`, the SQL evaluation of the
  `extra(select=...)` date-format expression by the backing store) live in an
  `Env` record of opaque functions, as the spec directs (spec section 6).
-/

set_option maxRecDepth 4000

namespace Indivo

/-- Declared field types of the query engine: `DATE`, `STRING`, `NUMBER`
(`query.py` lines 24-26). -/
inductive FieldType
  | string
  | date
  | number
deriving DecidableEq, Repr

/-- Typed values stored in fact fields.  Python floats are embedded as `Rat`;
parsed ISO-8601 datetimes are embedded as their normalized text. -/
inductive Value
  | vStr (s : String)
  | vDate (d : String)
  | vNum (q : Rat)
deriving DecidableEq, Repr

/-- Digits of a decimal literal to a natural number. -/
def digitsToNat (cs : List Char) : Nat :=
  cs.foldl (fun n c => n * 10 + (c.toNat - 48)) 0

/-- Embedding of Python `float(s)` restricted to plain decimal literals
(optional sign, integer part, optional fractional part); exponent and
inf/nan forms are outside the model.  (`EXPOSED_TYPES[NUMBER]`,
`query.py` line 31.) -/
def parseNumber (s : String) : Option Rat :=
  let cs := s.toList
  let neg := cs.headD ' ' = '-'
  let cs₂ := if cs.headD ' ' = '-' || cs.headD ' ' = '+' then cs.tail else cs
  let ip := cs₂.takeWhile (fun c => c ≠ '.')
  let rest := cs₂.dropWhile (fun c => c ≠ '.')
  let parts : Option (List Char × List Char) :=
    match rest with
    | [] => some (ip, [])
    | _ :: fp => if fp.contains '.' then none else some (ip, fp)
  match parts with
  | none => none
  | some (ip, fp) =>
    if ip.all Char.isDigit && fp.all Char.isDigit && (!ip.isEmpty || !fp.isEmpty) then
      let mag : Rat :=
        mkRat (digitsToNat ip * 10 ^ fp.length + digitsToNat fp) (10 ^ fp.length)
      some (if neg then -mag else mag)
    else none

/-- Modelled from the spec: `parse_iso8601_datetime` lives in
`indivo/lib/iso8601.py`, which is not under `src/`; the spec describes it as
"an ISO-8601 parser" (section 6).  The model accepts `YYYY-MM-DD` and
`YYYY-MM-DDTHH:MM:SS` digit shapes and keeps the accepted text as the value. -/
def parseDate (s : String) : Option String :=
  match s.toList with
  | [y1, y2, y3, y4, '-', m1, m2, '-', d1, d2] =>
    if [y1, y2, y3, y4, m1, m2, d1, d2].all Char.isDigit then some s else none
  | [y1, y2, y3, y4, '-', m1, m2, '-', d1, d2, 'T', h1, h2, ':', i1, i2, ':', s1, s2] =>
    if [y1, y2, y3, y4, m1, m2, d1, d2, h1, h2, i1, i2, s1, s2].all Char.isDigit then some s
    else none
  | _ => none

/-- `EXPOSED_TYPES` (`query.py` lines 28-32): the per-type coercion applied to
raw string input.  `str` is the identity, failures of the other two parsers
surface as `None` and are turned into errors at the call site. -/
def exposedTypeParse : FieldType → String → Option Value
  | .string, s => some (.vStr s)
  | .date, s => (parseDate s).map Value.vDate
  | .number, s => (parseNumber s).map Value.vNum

/-- Aggregation operators (`AGG_OPS` keys, `query.py` lines 34-40). -/
inductive AggFunc
  | aggSum
  | aggAvg
  | aggMax
  | aggMin
  | aggCount
deriving DecidableEq, Repr

/-- `AGG_OPS` (`query.py` lines 34-40): operator token to (Django aggregate
function, list of accepted declared types). -/
def AGG_OPS : List (String × AggFunc × List FieldType) :=
  [("sum", .aggSum, [.number]),
   ("avg", .aggAvg, [.number]),
   ("max", .aggMax, [.number, .date]),
   ("min", .aggMin, [.number, .date]),
   ("count", .aggCount, [.number, .date, .string])]

/-- `AGG_OPS.has_key` / `AGG_OPS[op]` lookup. -/
def aggOpsLookup (op : String) : Option (AggFunc × List FieldType) :=
  (AGG_OPS.find? (fun p => p.1 = op)).map (fun p => p.2)

/-- The three database backends the source formats dates for
(`query.py` line 13). -/
inductive DbEngine
  | postgresql_psycopg2
  | mysql
  | oracle
deriving DecidableEq, Repr

/-- `TIME_INCRS` (`query.py` lines 42-70): time-bucket unit to per-backend
date-format string.  The mysql entries keep the literal doubled percent signs
of the source (they are unescaped later by the database driver, outside this
core). -/
def TIME_INCRS : List (String × (DbEngine → String)) :=
  [("hour", fun e => match e with
      | .postgresql_psycopg2 => "YYYY-MM-DD-HH24"
      | .oracle => "YYYY-MM-DD-HH24"
      | .mysql => "%%Y-%%m-%%d-%%H"),
   ("day", fun e => match e with
      | .postgresql_psycopg2 => "YYYY-MM-DD"
      | .oracle => "YYYY-MM-DD"
      | .mysql => "%%Y-%%m-%%d"),
   ("week", fun e => match e with
      | .postgresql_psycopg2 => "YYYY-WW"
      | .oracle => "YYYY-WW"
      | .mysql => "%%Y-%%U"),
   ("month", fun e => match e with
      | .postgresql_psycopg2 => "YYYY-MM"
      | .oracle => "YYYY-MM"
      | .mysql => "%%Y-%%m"),
   ("year", fun e => match e with
      | .postgresql_psycopg2 => "YYYY"
      | .oracle => "YYYY"
      | .mysql => "%%Y"),
   ("hourofday", fun e => match e with
      | .postgresql_psycopg2 => "HH24"
      | .oracle => "HH24"
      | .mysql => "%%H"),
   ("dayofweek", fun e => match e with
      | .postgresql_psycopg2 => "D"
      | .oracle => "D"
      | .mysql => "%%w"),
   ("weekofyear", fun e => match e with
      | .postgresql_psycopg2 => "WW"
      | .oracle => "WW"
      | .mysql => "%%U"),
   ("monthofyear", fun e => match e with
      | .postgresql_psycopg2 => "MM"
      | .oracle => "MM"
      | .mysql => "%%m")]

/-- `TIME_INCRS.has_key(incr)` / `TIME_INCRS[incr]`. -/
def timeIncrLookup (incr : String) : Option (DbEngine → String) :=
  (TIME_INCRS.find? (fun p => p.1 = incr)).map (fun p => p.2)

/-- `FORMAT_STRS[engine] % {field, format}` (`query.py` lines 72-76):
the backend-dialect template with both interpolations performed. -/
def formatStrApply (e : DbEngine) (field format : String) : String :=
  match e with
  | .postgresql_psycopg2 => "to_char(\x22" ++ field ++ "\x22, \x27" ++ format ++ "\x27)"
  | .oracle => "to_char(" ++ field ++ ", \x27" ++ format ++ "\x27)"
  | .mysql => "date_format(" ++ field ++ ", \x27" ++ format ++ "\x27)"

/-- `OUTPUT_TEMPLATE` (`query.py` line 78). -/
def OUTPUT_TEMPLATE : String := "reports/report"

/-- `AGGREGATE_TEMPLATE` (`query.py` line 79). -/
def AGGREGATE_TEMPLATE : String := "reports/aggregate.xml"

/-- Python `s.split(sep)` for a one-character separator, on exploded
characters: the accumulator holds the current token reversed. -/
def splitCharAux (sep : Char) : List Char → List Char → List (List Char)
  | [], acc => [acc.reverse]
  | c :: cs, acc =>
    if c = sep then acc.reverse :: splitCharAux sep cs []
    else splitCharAux sep cs (c :: acc)

/-- Python `s.split(sep)` for a one-character separator.  Like the Python
original it never returns an empty list: an empty input yields one empty
token. -/
def pySplit (sep : Char) (s : String) : List String :=
  (splitCharAux sep s.toList []).map (fun cs => String.mk cs)

/-- Python `s.split(sep, 1)` for a one-character separator, returning the
two halves when the separator occurs. -/
def pySplitOnce (sep : Char) (s : String) : Option (String × String) :=
  let cs := s.toList
  let i := cs.findIdx (fun c => c = sep)
  if i < cs.length then some (String.mk (cs.take i), String.mk (cs.drop (i + 1)))
  else none

/-- A fact row of the backing store: the primary key, the owning record and
the backing columns (including paths such as `document__status`). -/
structure Fact where
  id : Nat
  record : Option String
  fields : List (String × Value)
deriving DecidableEq, Repr

/-- `f.<column>` lookup on a fact row; `none` is SQL NULL. -/
def Fact.get (f : Fact) (col : String) : Option Value :=
  (f.fields.find? (fun p => p.1 = col)).map (fun p => p.2)

/-- A carenet (access scope); the engine only reads its `record` attribute
(`query.py` line 119). -/
structure Carenet where
  record : Option String
deriving DecidableEq, Repr

/-- External collaborators of the engine, opaque per spec section 6:
the configured database backend (`DB_ENGINE`, `query.py` lines 17-22), the
carenet row filter (`carenet_facts_filter` from `sharing_utils`, not under
`src/`), and the backing store evaluation of an `extra(select=...)` SQL
expression on a row. -/
structure Env where
  dbEngine : DbEngine
  carenetFactsFilter : Option Carenet → List Fact → List Fact
  sqlEval : String → Fact → Option Value

/-- One entry of the Django `filter(**filter_args)` keyword dictionary,
carrying the backing column and the compiled predicate. -/
inductive FilterArg
  | eqArg (col : String) (v : Value)
  | inArg (col : String) (vs : List Value)
  | gteArg (col : String) (v : Value)
  | lteArg (col : String) (v : Value)
deriving DecidableEq, Repr

/-- Comparison used for the `__gte`/`__lte` lookups and for ordering; values
of distinct types are incomparable (such comparisons never arise from the
validated pipeline, which type-checks date ranges). -/
def valueLE : Value → Value → Bool
  | .vNum a, .vNum b => a ≤ b
  | .vStr a, .vStr b => a ≤ b
  | .vDate a, .vDate b => a ≤ b
  | _, _ => false

/-- Whether a fact row satisfies one compiled filter argument. -/
def satisfiesArg (f : Fact) : FilterArg → Bool
  | .eqArg col v => f.get col = some v
  | .inArg col vs => match f.get col with
    | some w => vs.contains w
    | none => false
  | .gteArg col v => match f.get col with
    | some w => valueLE v w
    | none => false
  | .lteArg col v => match f.get col with
    | some w => valueLE w v
    | none => false

/-- Python dict assignment `d[k] = v` on an insertion-ordered association
list: an existing key keeps its position and takes the new value, a new key
is appended. -/
def dictInsert (d : List (String × String)) (k v : String) : List (String × String) :=
  if d.any (fun p => p.1 = k) then d.map (fun p => if p.1 = k then (k, v) else p)
  else d ++ [(k, v)]

/-- Same dict assignment for the `filter_args` dictionary. -/
def argsInsert (d : List (String × FilterArg)) (k : String) (v : FilterArg) :
    List (String × FilterArg) :=
  if d.any (fun p => p.1 = k) then d.map (fun p => if p.1 = k then (k, v) else p)
  else d ++ [(k, v)]

/-- Python `dict(pairs)`: fold the pairs into an insertion-ordered dict, the
last value of a repeated key winning. -/
def dictOfPairs (ps : List (String × String)) : List (String × String) :=
  ps.foldl (fun d p => dictInsert d p.1 p.2) []

/-- Dict lookup `d.get(k)`. -/
def dictLookup (d : List (String × String)) (k : String) : Option String :=
  (d.find? (fun p => p.1 = k)).map (fun p => p.2)

/-- The shapes a `FactQuery` result set moves through: a plain QuerySet of
facts, a `values(key)` projection (each fact paired with its computed group
key), the annotated per-group rows (group key value, `aggregate_value`), the
dict returned by `.aggregate(...)`, and the one-element Python list the flat
aggregation is wrapped into at the end of `execute()`. -/
inductive ResultSet
  | qs (rows : List Fact)
  | valuesQS (key : String) (rows : List (Fact × Option Value))
  | groupedQS (key : String) (groups : List (Option Value × Option Value))
  | flatDict (v : Option Value)
  | flatList (v : Option Value)
deriving DecidableEq, Repr

/-- `results.count()` / `len(results)` (the two agree on every shape the
engine produces; the one-element flat-aggregation list has length 1). -/
def ResultSet.count : ResultSet → Nat
  | .qs rows => rows.length
  | .valuesQS _ rows => rows.length
  | .groupedQS _ groups => groups.length
  | .flatDict _ => 1
  | .flatList _ => 1

/-- Python list slice `l[start:stop]` for the non-negative indices the engine
produces (offset is normalized non-negative at construction; Django rejects
negative slice bounds, which are outside the model). -/
def ResultSet.slice (rs : ResultSet) (start stop : Int) : ResultSet :=
  match rs with
  | .qs rows => .qs ((rows.take stop.toNat).drop start.toNat)
  | .valuesQS k rows => .valuesQS k ((rows.take stop.toNat).drop start.toNat)
  | .groupedQS k groups => .groupedQS k ((groups.take stop.toNat).drop start.toNat)
  | .flatDict v => .flatDict v
  | .flatList v => .flatList v

/-- SQL aggregate over the non-NULL column values of a group
(`Sum`/`Avg`/`Max`/`Min`/`Count` of `django.db.models`): `count` counts the
non-NULL values, `sum`/`avg` reduce the numeric ones, an empty input gives
NULL. -/
def aggValues : AggFunc → List Value → Option Value
  | .aggCount, vs => some (.vNum vs.length)
  | .aggSum, vs =>
    let ns := vs.filterMap (fun v => match v with | .vNum q => some q | _ => none)
    if ns.isEmpty then none else some (.vNum (ns.foldl (· + ·) 0))
  | .aggAvg, vs =>
    let ns := vs.filterMap (fun v => match v with | .vNum q => some q | _ => none)
    if ns.isEmpty then none else some (.vNum (ns.foldl (· + ·) 0 / (ns.length : Rat)))
  | .aggMax, vs =>
    vs.foldl (fun acc v => match acc with
      | none => some v
      | some w => some (if valueLE w v then v else w)) none
  | .aggMin, vs =>
    vs.foldl (fun acc v => match acc with
      | none => some v
      | some w => some (if valueLE v w then v else w)) none

/-- Distinct group-key values in order of first appearance. -/
def distinctKeys (rows : List (Fact × Option Value)) : List (Option Value) :=
  rows.foldl (fun acc p => if acc.contains p.2 then acc else acc ++ [p.2]) []

/-- `results.annotate(aggregate_value=func(col))` on a `values(key)`
projection: one output row per distinct group-key value, carrying the
aggregate of `col` over that group. -/
def annotateRS (rs : ResultSet) (fn : AggFunc) (col : String) : ResultSet :=
  match rs with
  | .valuesQS key rows =>
    .groupedQS key ((distinctKeys rows).map (fun k =>
      (k, aggValues fn ((rows.filter (fun p => p.2 = k)).filterMap (fun p => p.1.get col)))))
  | other => other

/-- `results.aggregate(aggregate_value=func(col))` on a plain QuerySet:
the whole-relation scalar reduction.  `execute()` only reaches this with a
plain QuerySet (flat aggregation has no grouping). -/
def aggregateRS (rs : ResultSet) (fn : AggFunc) (col : String) : ResultSet :=
  match rs with
  | .qs rows => .flatDict (aggValues fn (rows.filterMap (fun f => f.get col)))
  | other => other

/-- `results = [results]` (`query.py` line 203): wrap the aggregate dict into
a one-element Python list; `execute()` only reaches this with a `flatDict`. -/
def toFlatList : ResultSet → ResultSet
  | .flatDict v => .flatList v
  | other => other

/-- Insertion step of an insertion sort with a Boolean "less or equal". -/
def insertLE {α : Type} (le : α → α → Bool) (a : α) : List α → List α
  | [] => [a]
  | b :: bs => if le a b then a :: b :: bs else b :: insertLE le a bs

/-- Stable insertion sort; stands in for the backing store's ORDER BY. -/
def sortByLE {α : Type} (le : α → α → Bool) (l : List α) : List α :=
  l.foldr (insertLE le) []

/-- `order_by(key, 'id')` comparison on fact rows: the named column first
(descending when asked), the primary key ascending as tie-break. -/
def factLE (col : String) (desc : Bool) (a b : Fact) : Bool :=
  if a.get col = b.get col then a.id ≤ b.id
  else
    let x := a.get col
    let y := b.get col
    let le := match x, y with
      | none, _ => true
      | some _, none => false
      | some u, some v => valueLE u v
    if desc then !le else le

/-- Option-valued comparison used when ordering grouped rows. -/
def optValueLE (x y : Option Value) : Bool :=
  match x, y with
  | none, _ => true
  | some _, none => false
  | some u, some v => valueLE u v

/-- `results.order_by(field-or-alias, 'id')` on each result-set shape.  On
grouped rows the field is either the literal string `aggregate_value` or the
group key (the resolved column, or the time-increment alias); the `id`
tie-break only applies to fact rows. -/
def orderRS (rs : ResultSet) (field : String) (desc : Bool) : ResultSet :=
  match rs with
  | .qs rows => .qs (sortByLE (factLE field desc) rows)
  | .valuesQS k rows =>
    .valuesQS k (sortByLE (fun a b => if desc then !optValueLE a.2 b.2 else optValueLE a.2 b.2) rows)
  | .groupedQS k groups =>
    if field = "aggregate_value" then
      .groupedQS k (sortByLE (fun a b => if desc then !optValueLE a.2 b.2 else optValueLE a.2 b.2) groups)
    else
      .groupedQS k (sortByLE (fun a b => if desc then !optValueLE a.1 b.1 else optValueLE a.1 b.1) groups)
  | other => other

/-- The `date_group` option dict: `{field, time_incr}`. -/
structure DateGroup where
  field : String
  time_incr : String
deriving DecidableEq, Repr

/-- The `aggregate_by` option dict: `{field, operator}`. -/
structure AggregateBy where
  field : String
  operator : String
deriving DecidableEq, Repr

/-- The `date_range` option dict: `{field, start_date, end_date}`; the bounds
arrive already parsed (datetime objects, `None` when absent). -/
structure DateRange where
  field : String
  start_date : Option Value
  end_date : Option Value
deriving DecidableEq, Repr

/-- The raw options bag handed to `FactQuery.__init__` (`query.py` lines
101-110); each entry is `query_options.get(...)`, so every slot is optional. -/
structure QueryOptions where
  group_by : Option String
  date_group : Option DateGroup
  aggregate_by : Option AggregateBy
  limit : Option Int
  offset : Option Int
  order_by : Option String
  status : Option String
  date_range : Option DateRange
  filters : List (String × String)
deriving DecidableEq, Repr

/-- The outcome of `urlparse.urlparse(request_url)`: the six URL components.
The model carries request URLs already split; `urlunparse` below rebuilds the
string form. -/
structure ParsedUri where
  scheme : String
  netloc : String
  path : String
  params : String
  query : String
  fragment : String
deriving DecidableEq, Repr

/-- The immutable part of a `FactQuery` session, as `__init__` leaves it
(`query.py` lines 92-124).  `offset` is already normalized (see
`FactQuery.init`); `record` is already replaced by `carenet.record` when a
carenet was given. -/
structure FactQuery where
  modelName : String
  validFilters : List (String × String × FieldType)
  groupBy : Option String
  dateGroup : Option DateGroup
  aggregateBy : Option AggregateBy
  limit : Option Int
  offset : Int
  orderBy : Option String
  status : Option String
  dateRange : Option DateRange
  queryFilters : List (String × String)
  carenet : Option Carenet
  record : Option String
  factId : Option Nat
  requestUrl : ParsedUri

/-- The mutable slots of the session, populated by `execute()` (`query.py`
lines 112-116); all start as `None`. -/
structure SessionState where
  results : Option ResultSet
  trc : Option Nat
  grouping_p : Option Bool
  flat_aggregation : Option Bool
deriving DecidableEq, Repr

/-- The state right after `__init__`: nothing computed yet. -/
def initState : SessionState :=
  { results := none, trc := none, grouping_p := none, flat_aggregation := none }

/-- `FactQuery.__init__` (`query.py` lines 92-124).  The offset normalization
embeds the Python 2 comparison `self.offset >= 0`, which is `False` both for
a negative int and for `None` (in Python 2, `None` compares below every
int), so an absent or negative offset becomes 0.  `self.record` is
`carenet.record if carenet else record`. -/
def FactQuery.init (modelName : String) (validFilters : List (String × String × FieldType))
    (opts : QueryOptions) (record : Option String) (carenet : Option Carenet)
    (factId : Option Nat) (requestUrl : ParsedUri) : FactQuery :=
  { modelName := modelName
    validFilters := validFilters
    groupBy := opts.group_by
    dateGroup := opts.date_group
    aggregateBy := opts.aggregate_by
    limit := opts.limit
    offset := match opts.offset with
      | some n => if 0 ≤ n then n else 0
      | none => 0
    orderBy := opts.order_by
    status := opts.status
    dateRange := opts.date_range
    queryFilters := opts.filters
    carenet := carenet
    record := match carenet with
      | some c => c.record
      | none => record
    factId := factId
    requestUrl := requestUrl }

/-- Python truthiness of an optional string (`None` and `""` are falsy). -/
def optStrTruthy : Option String → Bool
  | none => false
  | some s => decide (s ≠ "")

/-- Python truthiness of an optional int (`None` and `0` are falsy). -/
def optIntTruthy : Option Int → Bool
  | none => false
  | some n => decide (n ≠ 0)

/-- `self.valid_filters.has_key(f)` / `self.valid_filters[f]`: resolve an
exposed field name to its (backing column, declared type). -/
def schemaLookup (vf : List (String × String × FieldType)) (f : String) :
    Option (String × FieldType) :=
  (vf.find? (fun p => p.1 = f)).map (fun p => p.2)

/-- The exceptions `query.py` raises, one constructor per raise site, carrying
the data interpolated into the message.  `invalidOrderField` covers both
order-by raise sites (lines 368 and 374/376) with the full message text;
`attributeError` embeds the Python `AttributeError` raised when an attribute
that was never assigned is read; `typeError` embeds `len(None)`. -/
inductive QueryErr
  | invalidFilterValue (field : String) (ftype : FieldType) (tokens : List String)
  | invalidFilter (model field : String)
  | invalidDateRangeType (field : String) (ftype : FieldType)
  | invalidDateRangeFilter (model field : String)
  | invalidGroupField (model field : String)
  | invalidTimeIncrement (incr : String)
  | incompatibleAggregateType (op : String) (accepted : List FieldType)
      (field : String) (ftype : FieldType)
  | invalidAggOperator (op : String)
  | invalidAggField (model field : String)
  | missingAggregation
  | invalidOrderField (msg : String)
  | attributeError (name : String)
  | typeError (msg : String)
deriving DecidableEq, Repr

/-- The list comprehension `[EXPOSED_TYPES[field_type](x) for x in val]`
(`query.py` line 254): coerce every token left to right, the first failure
aborting (it is caught and re-raised as the filter-value error). -/
def parseAll (fty : FieldType) : List String → Option (List Value)
  | [] => some []
  | t :: ts =>
    match exposedTypeParse fty t, parseAll fty ts with
    | some v, some vs => some (v :: vs)
    | _, _ => none

/-- The body of the `query_filters` loop of `_apply_filters` (`query.py`
lines 245-260) for one (field, raw value) pair: resolve the field, split the
raw value on the `|` delimiter, coerce every token with the declared type
parser; one token compiles to an equality entry keyed by the column, several
tokens to a membership entry keyed by `column + "__in"` (guarded, as in the
source, by the parsed list being non-empty).  A coercion failure raises
`ValueError` naming the field, the declared type and the (already split) raw
value; an unknown field raises `ValueError` naming the fact type and the
field. -/
def compileFieldFilter (q : FactQuery) (field rawVal : String) :
    Except QueryErr (Option (String × FilterArg)) :=
  match schemaLookup q.validFilters field with
  | none => .error (.invalidFilter q.modelName field)
  | some (col, fty) =>
    let toks := pySplit '|' rawVal
    if toks.length = 1 then
      match exposedTypeParse fty (toks.headD "") with
      | some v => .ok (some (col, .eqArg col v))
      | none => .error (.invalidFilterValue field fty toks)
    else
      match parseAll fty toks with
      | some vs =>
        if vs.length > 0 then .ok (some (col ++ "__in", .inArg col vs)) else .ok none
      | none => .error (.invalidFilterValue field fty toks)

/-- `FactQuery._apply_filters` (`query.py` lines 234-283): restrict to the
record scope when one applies, run the opaque carenet filter, compile the
field filters, the date range and the status filter into the `filter_args`
dict, and apply them conjunctively when the dict is non-empty. -/
def FactQuery.applyFilters (q : FactQuery) (env : Env) (rows₀ : List Fact) :
    Except QueryErr (List Fact) :=
  let rows₁ := if q.record.isSome then rows₀.filter (fun f => f.record == q.record) else rows₀
  let rows₂ := env.carenetFactsFilter q.carenet rows₁
  let step := fun (d : List (String × FilterArg)) (p : String × String) =>
    match compileFieldFilter q p.1 p.2 with
    | .error e => Except.error e
    | .ok none => Except.ok d
    | .ok (some (k, a)) => Except.ok (argsInsert d k a)
  match q.queryFilters.foldlM step [] with
  | .error e => .error e
  | .ok fargs₀ =>
    let withRange : Except QueryErr (List (String × FilterArg)) :=
      match q.dateRange with
      | none => .ok fargs₀
      | some dr =>
        match schemaLookup q.validFilters dr.field with
        | none => .error (.invalidDateRangeFilter q.modelName dr.field)
        | some (col, fty) =>
          if fty ≠ .date then .error (.invalidDateRangeType dr.field fty)
          else
            let d₁ := match dr.start_date with
              | some sv => argsInsert fargs₀ (col ++ "__gte") (.gteArg col sv)
              | none => fargs₀
            let d₂ := match dr.end_date with
              | some ev => argsInsert d₁ (col ++ "__lte") (.lteArg col ev)
              | none => d₁
            .ok d₂
    match withRange with
    | .error e => .error e
    | .ok fargs₁ =>
      let fargs₂ :=
        if optStrTruthy q.status then
          argsInsert fargs₁ "document__status" (.eqArg "document__status" (.vStr (q.status.getD "")))
        else fargs₁
      if fargs₂.isEmpty then .ok rows₂
      else .ok (rows₂.filter (fun f => fargs₂.all (fun p => satisfiesArg f p.2)))

/-- `FactQuery._apply_grouping` (`query.py` lines 285-322).  A plain
`group_by` resolves the field and projects with `values(column)`.  A
`date_group` resolves the field; a non-`date` declared type takes the raise
at line 300, whose message interpolates `self.field_type` — an attribute
`FactQuery` never assigns — so Python raises `AttributeError` while building
that message.  Otherwise the time increment is validated against
`TIME_INCRS`, the backend format expression is attached via
`extra(select={time_incr: ...})` (its evaluation on each row is the backing
store's `env.sqlEval`) and the projection groups on the increment alias.
With neither option the relation passes through unprojected (`group_field`
stays the `'all'` sentinel). -/
def FactQuery.applyGrouping (q : FactQuery) (env : Env) (rows : List Fact) :
    Except QueryErr ResultSet :=
  if optStrTruthy q.groupBy then
    match schemaLookup q.validFilters (q.groupBy.getD "") with
    | some (col, _) => .ok (.valuesQS col (rows.map (fun f => (f, f.get col))))
    | none => .error (.invalidGroupField q.modelName (q.groupBy.getD ""))
  else
    match q.dateGroup with
    | some dg =>
      match schemaLookup q.validFilters dg.field with
      | none => .error (.invalidGroupField q.modelName dg.field)
      | some (col, fty) =>
        if fty ≠ .date then .error (.attributeError "field_type")
        else
          match timeIncrLookup dg.time_incr with
          | none => .error (.invalidTimeIncrement dg.time_incr)
          | some fmts =>
            let sqlStr := formatStrApply env.dbEngine col (fmts env.dbEngine)
            .ok (.valuesQS dg.time_incr (rows.map (fun f => (f, env.sqlEval sqlStr f))))
    | none => .ok (.qs rows)

/-- `FactQuery._apply_aggregation` (`query.py` lines 324-357): with an
`aggregate_by`, resolve the field, look the operator up in `AGG_OPS`, reject
a declared type the operator does not accept, then annotate per group
(grouping active) or reduce the whole relation (flat).  Without one, grouping
active is fatal. -/
def FactQuery.applyAggregation (q : FactQuery) (grouping_p : Bool) (rs : ResultSet) :
    Except QueryErr ResultSet :=
  match q.aggregateBy with
  | some ab =>
    match schemaLookup q.validFilters ab.field with
    | none => .error (.invalidAggField q.modelName ab.field)
    | some (col, fty) =>
      match aggOpsLookup ab.operator with
      | none => .error (.invalidAggOperator ab.operator)
      | some (fn, types) =>
        if fty ∈ types then
          if grouping_p then .ok (annotateRS rs fn col)
          else .ok (aggregateRS rs fn col)
        else .error (.incompatibleAggregateType ab.operator types ab.field fty)
  | none =>
    if grouping_p then .error .missingAggregation else .ok rs

/-- `FactQuery._apply_ordering` (`query.py` lines 359-390): strip one leading
descending marker, resolve the field, then run the special-case chain —
ordering by the aggregate field reorders on `aggregate_value`; under a
`group_by` (resp. `date_group`) any other field than the grouping field
(resp. the date field) is rejected; a surviving `date_group` order uses the
time-increment alias.  `id` is always appended as secondary sort key.  With
no `order_by`, ordering is cleared (the model has no default ordering, so
clearing is the identity). -/
def FactQuery.applyOrdering (q : FactQuery) (rs : ResultSet) : Except QueryErr ResultSet :=
  if optStrTruthy q.orderBy then
    let ob := q.orderBy.getD ""
    let desc := ob.take 1 = "-"
    let ext := if desc then ob.drop 1 else ob
    match schemaLookup q.validFilters ext with
    | none =>
      .error (.invalidOrderField
        ("Invalid order by field for fact type " ++ q.modelName ++ ": " ++ ob))
    | some (col, _) =>
      let aggMatch := match q.aggregateBy with
        | some ab => decide (ext = ab.field)
        | none => false
      if aggMatch then .ok (orderRS rs "aggregate_value" desc)
      else if optStrTruthy q.groupBy && decide (ext ≠ q.groupBy.getD "") then
        .error (.invalidOrderField
          ("OrderBy fields in aggregations may only refer to the grouping field or the aggregation field. Your field was: " ++ ob))
      else
        match q.dateGroup with
        | some dg =>
          if ext ≠ dg.field then
            .error (.invalidOrderField
              ("OrderBy fields in aggregations may only refer to the grouping field or the aggregation field. Your field was: " ++ ob))
          else .ok (orderRS rs dg.time_incr desc)
        | none => .ok (orderRS rs col desc)
  else .ok rs

/-- `FactQuery.execute` (`query.py` lines 154-212).  A single-instance
`fact_id` session only filters the model table on `id` equality and takes the
length as total count.  Otherwise the stages run in the fixed order
filter, group, aggregate, order, paginate; `grouping_p` and
`flat_aggregation` are decided between grouping and aggregation; ordering is
skipped for a flat aggregation, which is wrapped into a one-element list with
total count 1; otherwise the pre-slice count is captured and, when a limit is
set, `[offset : offset + limit]` is sliced. -/
def FactQuery.execute (q : FactQuery) (env : Env) (db : List Fact) (st : SessionState) :
    Except QueryErr SessionState :=
  match q.factId with
  | some fid =>
    let results := db.filter (fun f => f.id == fid)
    .ok { st with results := some (.qs results), trc := some results.length }
  | none =>
    match q.applyFilters env db with
    | .error e => .error e
    | .ok rows =>
      match q.applyGrouping env rows with
      | .error e => .error e
      | .ok rs =>
        let grouping_p := optStrTruthy q.groupBy || q.dateGroup.isSome
        let flat := q.aggregateBy.isSome && !grouping_p
        match q.applyAggregation grouping_p rs with
        | .error e => .error e
        | .ok rs₂ =>
          if flat then
            .ok { st with results := some (toFlatList rs₂), trc := some 1,
                          grouping_p := some grouping_p, flat_aggregation := some flat }
          else
            match q.applyOrdering rs₂ with
            | .error e => .error e
            | .ok rs₃ =>
              let trc := rs₃.count
              let rs₄ :=
                if optIntTruthy q.limit then rs₃.slice q.offset (q.offset + q.limit.getD 0)
                else rs₃
              .ok { st with results := some rs₄, trc := some trc,
                            grouping_p := some grouping_p, flat_aggregation := some flat }

/-- Python 2 `urlparse.parse_qsl(qs)` with default arguments: split on `&`
and `;`, skip empty chunks, skip chunks without `=` or with an empty value.
The model elides percent-decoding and plus-to-space translation (the
identity on the parameter strings the engine manipulates). -/
def parse_qsl (qs : String) : List (String × String) :=
  ((pySplit '&' qs).flatMap (fun s1 => pySplit ';' s1)).filterMap (fun nv =>
    if nv = "" then none
    else
      match pySplitOnce '=' nv with
      | none => none
      | some (n, v) => if v = "" then none else some (n, v))

/-- Python 2 `urllib.urlencode(d)` over the dict items, eliding
percent-encoding (the identity on the parameter strings the engine
manipulates). -/
def urlencode (d : List (String × String)) : String :=
  String.intercalate "&" (d.map (fun p => p.1 ++ "=" ++ p.2))

/-- Python 2 `urlparse.urlunparse` on the six components. -/
def urlunparse (u : ParsedUri) : String :=
  let url₀ := u.path ++ (if u.params ≠ "" then ";" ++ u.params else "")
  let url₁ :=
    if u.netloc ≠ "" ∨ url₀.take 2 = "//" then
      "//" ++ u.netloc ++ (if url₀ ≠ "" ∧ url₀.take 1 ≠ "/" then "/" ++ url₀ else url₀)
    else url₀
  let url₂ := if u.scheme ≠ "" then u.scheme ++ ":" ++ url₁ else url₁
  let url₃ := if u.query ≠ "" then url₂ ++ "?" ++ u.query else url₂
  if u.fragment ≠ "" then url₃ ++ "#" ++ u.fragment else url₃

/-- Python 2 comparison `self.trc > x`: `None` compares below every int, so a
`None` total count is never greater. -/
def trcGT (trc : Option Nat) (x : Int) : Bool :=
  match trc with
  | none => false
  | some t => decide ((t : Int) > x)

/-- `FactQuery.next_url` (`query.py` lines 214-232).  The row count of the
current results is taken first (`len(None)` raises `TypeError` when
`execute()` has not run).  When a limit is set and the stored total count
exceeds offset plus that row count, the request URL is re-assembled with its
query-string parameters as a dict and `offset` set to `offset + limit` —
but only inside the `if parsed_uri.query:` guard, so a request URL without a
query string yields `None` even then. -/
def FactQuery.nextUrl (q : FactQuery) (st : SessionState) : Except QueryErr (Option String) :=
  match st.results with
  | none => .error (.typeError "object of type \x27NoneType\x27 has no len()")
  | some rs =>
    let resultCount := rs.count
    if optIntTruthy q.limit && trcGT st.trc (q.offset + (resultCount : Int)) then
      if q.requestUrl.query ≠ "" then
        let qd := dictInsert (dictOfPairs (parse_qsl q.requestUrl.query)) "offset"
          (toString (q.offset + q.limit.getD 0))
        .ok (some (urlunparse { q.requestUrl with query := urlencode qd }))
      else .ok none
    else .ok none

/-- The observable inputs `render` hands to the external `render_template`
 (the rendering itself is outside this core, spec section 6): the output and
item templates it selected and the results and total count it passed. -/
structure RenderCall where
  outputTemplate : String
  itemTemplate : String
  fobjs : Option ResultSet
  trc : Option Nat
deriving DecidableEq, Repr

/-- `FactQuery.render` (`query.py` lines 126-152): run `execute()` first only
when `self.results is None`; switch the item template to the aggregate
template when an `aggregate_by` is present; pass results and total count to
the external template renderer. -/
def FactQuery.render (q : FactQuery) (env : Env) (db : List Fact) (st : SessionState)
    (itemTemplate : String) : Except QueryErr (SessionState × RenderCall) :=
  let after : Except QueryErr SessionState :=
    match st.results with
    | none => q.execute env db st
    | some _ => .ok st
  match after with
  | .error e => .error e
  | .ok st₂ =>
    .ok (st₂,
      { outputTemplate := OUTPUT_TEMPLATE
        itemTemplate := if q.aggregateBy.isSome then AGGREGATE_TEMPLATE else itemTemplate
        fobjs := st₂.results
        trc := st₂.trc })

/-! ## Concrete fixtures used by the witnesses and counterexamples -/

/-- An environment whose opaque collaborators are the identity carenet filter
and a backing store evaluating every extra-select expression to NULL. -/
def envW : Env :=
  { dbEngine := .postgresql_psycopg2
    carenetFactsFilter := fun _ rs => rs
    sqlEval := fun _ _ => none }

/-- A small field schema: a number, a date and a string field. -/
def schemaW : List (String × String × FieldType) :=
  [("weight", "doc.value", .number),
   ("created", "created_at", .date),
   ("name", "doc.name", .string)]

/-- An options bag with nothing set. -/
def optsNone : QueryOptions :=
  { group_by := none, date_group := none, aggregate_by := none, limit := none,
    offset := none, order_by := none, status := none, date_range := none, filters := [] }

/-- A request URL `http://host/r?limit=10`, already split into components. -/
def uriW : ParsedUri :=
  { scheme := "http", netloc := "host", path := "/r", params := "",
    query := "limit=10", fragment := "" }

/-- A plain listing session over `schemaW` with no options set. -/
def qPlain : FactQuery :=
  FactQuery.init "Measurement" schemaW optsNone none none none uriW

/-- A sample fact row. -/
def fact1 : Fact :=
  { id := 1, record := none, fields := [("doc.value", .vNum 70)] }

/-- A second sample fact row. -/
def fact2 : Fact :=
  { id := 2, record := none, fields := [("doc.value", .vNum 75)] }

/-! ## Helper lemmas -/

/-- Replacing the value stored at key `k` does not change which entry
`find?` locates for a different key. -/
theorem find?_update_ne (t : List (String × String)) (k k' v : String) (h : k' ≠ k) :
    (t.map (fun p => if p.1 = k then (k, v) else p)).find? (fun p => p.1 = k') =
      t.find? (fun p => p.1 = k') := by
  induction t with
  | nil => rfl
  | cons p t ih =>
    by_cases hp : p.1 = k
    · have h1 : ((k, v).1 = k') = False := by
        simp only [eq_iff_iff, iff_false]
        exact fun hh => h hh.symm
      have h2 : (p.1 = k') = False := by
        simp only [eq_iff_iff, iff_false, hp]
        exact fun hh => h hh.symm
      simp [List.map_cons, if_pos hp, List.find?_cons, h1, h2, ih]
    · simp only [List.map_cons, if_neg hp, List.find?_cons]
      by_cases hk : p.1 = k'
      · simp [hk]
      · simp [hk, ih]

/-- When some entry carries key `k`, `find?` on the updated list returns the
new pair. -/
theorem find?_update_self (t : List (String × String)) (k v : String)
    (hany : t.any (fun p => p.1 = k) = true) :
    (t.map (fun p => if p.1 = k then (k, v) else p)).find? (fun p => p.1 = k) =
      some (k, v) := by
  induction t with
  | nil => simp at hany
  | cons p t ih =>
    by_cases hp : p.1 = k
    · simp [List.map_cons, if_pos hp, List.find?_cons]
    · have hany' : t.any (fun p => p.1 = k) = true := by
        simpa [List.any_cons, hp] using hany
      simp [List.map_cons, if_neg hp, List.find?_cons, hp, ih hany']

/-- Inserting a key into a dict leaves the value found for every other key
unchanged. -/
theorem dictLookup_dictInsert_ne (d : List (String × String)) (k k' v : String)
    (h : k' ≠ k) : dictLookup (dictInsert d k v) k' = dictLookup d k' := by
  unfold dictInsert dictLookup
  by_cases hany : d.any (fun p => p.1 = k)
  · rw [if_pos hany]
    rw [find?_update_ne d k k' v h]
  · rw [if_neg hany]
    rw [List.find?_append]
    have hkk : decide (k = k') = false := decide_eq_false (fun hh => h hh.symm)
    have : List.find? (fun p => p.1 = k') [(k, v)] = none := by
      simp [List.find?_cons, hkk]
    simp [this]

/-- Inserting a key into a dict makes lookup of that key return the new
value. -/
theorem dictLookup_dictInsert_self (d : List (String × String)) (k v : String) :
    dictLookup (dictInsert d k v) k = some v := by
  unfold dictInsert dictLookup
  by_cases hany : d.any (fun p => p.1 = k)
  · rw [if_pos hany]
    rw [find?_update_self d k v hany]
    rfl
  · rw [if_neg hany]
    rw [List.find?_append]
    have hnone : List.find? (fun p => p.1 = k) d = none := by
      rw [List.find?_eq_none]
      intro x hx
      simp only [decide_eq_true_eq]
      intro hxk
      exact absurd (List.any_eq_true.mpr ⟨x, hx, by simpa using hxk⟩) hany
    simp [hnone, List.find?_cons]

/-- Successful coercion of every token preserves the token count. -/
theorem parseAll_length (fty : FieldType) :
    ∀ (ts : List String) (vs : List Value), parseAll fty ts = some vs →
      vs.length = ts.length := by
  intro ts
  induction ts with
  | nil => intro vs h; simp [parseAll] at h; simp [← h]
  | cons t ts ih =>
    intro vs h
    unfold parseAll at h
    cases hv : exposedTypeParse fty t with
    | none => rw [hv] at h; simp at h
    | some v =>
      rw [hv] at h
      cases hvs : parseAll fty ts with
      | none => rw [hvs] at h; simp at h
      | some ws =>
        rw [hvs] at h
        simp only [Option.some.injEq] at h
        simp [← h, ih ws hvs]

/-- Every fact-id filter over a table with pairwise distinct ids matches at
most one row. -/
theorem filter_id_length_le_one (db : List Fact) (fid : Nat)
    (h : (db.map Fact.id).Nodup) : (db.filter (fun f => f.id == fid)).length ≤ 1 := by
  induction db with
  | nil => simp
  | cons a l ih =>
    simp only [List.map_cons, List.nodup_cons] at h
    by_cases ha : a.id = fid
    · have hnil : l.filter (fun f => f.id == fid) = [] := by
        rw [List.filter_eq_nil_iff]
        intro f hf
        simp only [beq_iff_eq]
        intro hfid
        exact h.1 (by rw [← ha] at hfid; exact hfid ▸ List.mem_map_of_mem Fact.id hf)
      simp [List.filter_cons, ha, hnil]
    · simpa [List.filter_cons, ha] using ih h.2

/-! ## Claim theorems -/

/-- C9: for every `QueryOptions`, the session offset is non-negative after
construction — an absent or negative offset is normalized to 0 and any other
offset is kept as given (`query.py` lines 104-106; the Python 2 comparison
`None >= 0` is false, so an absent offset also falls to 0). -/
theorem C9_offset_normalized (mn : String) (vf : List (String × String × FieldType))
    (opts : QueryOptions) (r : Option String) (c : Option Carenet) (fid : Option Nat)
    (url : ParsedUri) :
    0 ≤ (FactQuery.init mn vf opts r c fid url).offset ∧
    (opts.offset = none → (FactQuery.init mn vf opts r c fid url).offset = 0) ∧
    (∀ n : Int, opts.offset = some n → n < 0 →
      (FactQuery.init mn vf opts r c fid url).offset = 0) ∧
    (∀ n : Int, opts.offset = some n → 0 ≤ n →
      (FactQuery.init mn vf opts r c fid url).offset = n) := by
  unfold FactQuery.init
  refine ⟨?_, ?_, ?_, ?_⟩
  · cases h : opts.offset with
    | none => simp
    | some n =>
      by_cases hn : 0 ≤ n
      · simp [hn]
      · simp [hn]
  · intro h; simp [h]
  · intro n h hn
    simp [h, not_le.mpr hn]
  · intro n h hn
    simp [h, hn]

/-- C9 witness: a negative offset is normalized to 0, a non-negative one is
kept. -/
theorem C9_offset_normalized_witness :
    (FactQuery.init "Measurement" schemaW
      { optsNone with offset := some (-5) } none none none uriW).offset = 0 ∧
    (FactQuery.init "Measurement" schemaW
      { optsNone with offset := some 7 } none none none uriW).offset = 7 :=
  ⟨(C9_offset_normalized "Measurement" schemaW { optsNone with offset := some (-5) }
      none none none uriW).2.2.1 (-5) rfl (by decide),
   (C9_offset_normalized "Measurement" schemaW { optsNone with offset := some 7 }
      none none none uriW).2.2.2 7 rfl (by decide)⟩

/-- C10: on a session with a single-instance `fact_id`, `execute()` only
filters the table on id equality and stores that row count as the total
count — the resulting state depends on nothing but the table, the id and the
prior state, so record scope, carenet filter, field filters, status, date
range, grouping, aggregation, ordering and slicing are all skipped; with
pairwise distinct ids the count is 0 or 1 (`query.py` lines 165-172). -/
theorem C10_fact_id_path (q : FactQuery) (env : Env) (db : List Fact)
    (st : SessionState) (fid : Nat) (hfid : q.factId = some fid) :
    q.execute env db st =
      .ok { st with results := some (.qs (db.filter (fun f => f.id == fid))),
                    trc := some (db.filter (fun f => f.id == fid)).length } ∧
    ((db.map Fact.id).Nodup → (db.filter (fun f => f.id == fid)).length ≤ 1) := by
  constructor
  · unfold FactQuery.execute
    rw [hfid]
  · intro h
    exact filter_id_length_le_one db fid h

/-- C10 witness: a `fact_id` session over a two-row table, with grouping and
limit options set, returns exactly the id-matching row untouched by them. -/
theorem C10_fact_id_path_witness :
    FactQuery.execute
      { qPlain with factId := some 1, groupBy := some "weight", limit := some 1,
                    status := some "active" } envW [fact1, fact2] initState =
      .ok { initState with results := some (.qs [fact1]), trc := some 1 } ∧
    ([fact1, fact2].filter (fun f => f.id == 1)).length ≤ 1 := by
  have h := C10_fact_id_path
    { qPlain with factId := some 1, groupBy := some "weight", limit := some 1,
                  status := some "active" } envW [fact1, fact2] initState 1 rfl
  exact ⟨h.1.trans (by rfl), h.2 (by decide)⟩

/-- C1 (evaluation at the failing input): a `date_group` over a field whose
declared type is `string` makes `execute()` fail with `AttributeError` on the
never-assigned attribute `field_type` (`query.py` line 300 interpolates
`self.field_type` into the would-be error message), not with the intended
`ValueError` naming the field and its declared type. -/
theorem C1_date_group_wrong_type_attribute_error :
    FactQuery.execute { qPlain with dateGroup := some ⟨"name", "month"⟩ } envW
      [fact1, fact2] initState = .error (.attributeError "field_type") := by
  rfl

/-- C3 counterexample: on a freshly constructed session (no `execute()` yet),
`next_url()` raises `TypeError` from `len(None)` instead of implicitly
running `execute()` and returning a URL or no value. -/
theorem C3_counterexample :
    FactQuery.nextUrl qPlain initState =
      .error (.typeError "object of type \x27NoneType\x27 has no len()") := by
  rfl

/-- C3 amended: `next_url()` does not trigger `execute()`; called on any
session state in which `execute()` has not yet populated `results`, it fails
with `TypeError` from taking `len` of `None` (`query.py` line 221).  The
implicit-execute behavior belongs to `render()`, not `next_url()`. -/
theorem C3_next_url_before_execute_raises (q : FactQuery) (st : SessionState)
    (h : st.results = none) :
    q.nextUrl st = .error (.typeError "object of type \x27NoneType\x27 has no len()") := by
  unfold FactQuery.nextUrl
  rw [h]

/-- C3 witness: the amended statement at a concrete fresh session. -/
theorem C3_next_url_before_execute_raises_witness :
    FactQuery.nextUrl { qPlain with limit := some 10 } initState =
      .error (.typeError "object of type \x27NoneType\x27 has no len()") :=
  C3_next_url_before_execute_raises { qPlain with limit := some 10 } initState rfl

/-- The state `execute()` leaves on `qPlain` over an empty table. -/
def stEmpty : SessionState :=
  { results := some (.qs []), trc := some 0,
    grouping_p := some false, flat_aggregation := some false }

/-- The state `execute()` leaves on `qPlain` over the one-row table. -/
def stOne : SessionState :=
  { results := some (.qs [fact1]), trc := some 1,
    grouping_p := some false, flat_aggregation := some false }

/-- C4 counterexample: `execute()` carries no compute-once flag — a second
direct call recomputes against the (changed) backing store instead of
reusing the cached result set and total count, so the cached state is not
what the second call returns. -/
theorem C4_counterexample :
    FactQuery.execute qPlain envW [] initState = .ok stEmpty ∧
    FactQuery.execute qPlain envW [fact1] stEmpty = .ok stOne ∧
    stOne.results ≠ stEmpty.results ∧ stOne.trc ≠ stEmpty.trc := by
  refine ⟨rfl, rfl, by decide, by decide⟩

/-- C4 amended: the compute-once behavior lives in `render()`, which runs
`execute()` only when `self.results is None` (`query.py` lines 127-128) and
otherwise reuses the cached result set and total count unchanged; the cached
`results` being non-`None` is the flag.  `execute()` itself recomputes
unconditionally on every call. -/
theorem C4_render_compute_once (q : FactQuery) (env : Env) (db : List Fact)
    (st : SessionState) (it : String) :
    (∀ r, st.results = some r →
      q.render env db st it = .ok (st,
        { outputTemplate := OUTPUT_TEMPLATE
          itemTemplate := if q.aggregateBy.isSome then AGGREGATE_TEMPLATE else it
          fobjs := st.results, trc := st.trc })) ∧
    (st.results = none →
      q.render env db st it = (q.execute env db st).map (fun st₂ => (st₂,
        { outputTemplate := OUTPUT_TEMPLATE
          itemTemplate := if q.aggregateBy.isSome then AGGREGATE_TEMPLATE else it
          fobjs := st₂.results, trc := st₂.trc }))) := by
  constructor
  · intro r hr
    simp [FactQuery.render, hr]
  · intro h
    unfold FactQuery.render
    rw [h]
    simp only []
    cases q.execute env db st with
    | error e => rfl
    | ok st₂ => rfl

/-- C4 witness: with results already cached, `render()` leaves the state
untouched (no recomputation against the now-different table) and passes the
cached results and count to the template. -/
theorem C4_render_compute_once_witness :
    FactQuery.render qPlain envW [fact1] stEmpty "reports/item" =
      .ok (stEmpty,
        { outputTemplate := OUTPUT_TEMPLATE, itemTemplate := "reports/item",
          fobjs := some (.qs []), trc := some 0 }) := by
  have h := (C4_render_compute_once qPlain envW [fact1] stEmpty "reports/item").1
    (.qs []) rfl
  exact h.trans (by rfl)

/-- C6: a query session (not a single-instance lookup) whose `group_by` or
`date_group` is active but whose `aggregate_by` is absent fails with the
`MissingAggregation` raise of `_apply_aggregation` (`query.py` lines
349-351), provided the earlier filter and grouping stages pass (each earlier
stage aborts with its own error first otherwise). -/
theorem C6_grouping_without_aggregation (q : FactQuery) (env : Env) (db : List Fact)
    (st : SessionState) (rows : List Fact) (rs : ResultSet)
    (hfact : q.factId = none)
    (hgrp : (optStrTruthy q.groupBy || q.dateGroup.isSome) = true)
    (hagg : q.aggregateBy = none)
    (hf : q.applyFilters env db = .ok rows)
    (hg : q.applyGrouping env rows = .ok rs) :
    q.execute env db st = .error .missingAggregation := by
  simp [FactQuery.execute, hfact, hf, hg, FactQuery.applyAggregation, hagg, hgrp]

/-- C6 witness: grouping on `weight` with no aggregation over an empty table
fails with `MissingAggregation`. -/
theorem C6_grouping_without_aggregation_witness :
    FactQuery.execute { qPlain with groupBy := some "weight" } envW [] initState =
      .error .missingAggregation :=
  C6_grouping_without_aggregation { qPlain with groupBy := some "weight" } envW []
    initState [] (.valuesQS "doc.value" []) rfl rfl rfl rfl rfl

/-- C7: per the `AGG_OPS` table (`query.py` lines 34-40) and the type check
of `_apply_aggregation` (lines 325-340), `sum` and `avg` applied to a field
of declared type `string` fail with the incompatible-aggregate raise (they
accept only `number`), while `count` succeeds on a field of any of the three
declared types. -/
theorem C7_aggregate_type_rules (q : FactQuery) (gp : Bool) (rs : ResultSet)
    (ab : AggregateBy) (col : String) (fty : FieldType)
    (hab : q.aggregateBy = some ab)
    (hschema : schemaLookup q.validFilters ab.field = some (col, fty)) :
    ((ab.operator = "sum" ∨ ab.operator = "avg") → fty = .string →
      q.applyAggregation gp rs =
        .error (.incompatibleAggregateType ab.operator [.number] ab.field .string)) ∧
    (ab.operator = "count" → ∃ rs₂, q.applyAggregation gp rs = .ok rs₂) := by
  constructor
  · intro hop hstr
    subst hstr
    unfold FactQuery.applyAggregation
    rcases hop with hop | hop
    · have hlk : aggOpsLookup ab.operator = some (.aggSum, [.number]) := by
        rw [hop]
        rfl
      simp [hab, hschema, hlk]
    · have hlk : aggOpsLookup ab.operator = some (.aggAvg, [.number]) := by
        rw [hop]
        rfl
      simp [hab, hschema, hlk]
  · intro hop
    unfold FactQuery.applyAggregation
    have hlk : aggOpsLookup ab.operator = some (.aggCount, [.number, .date, .string]) := by
      rw [hop]
      rfl
    have hty : fty ∈ [FieldType.number, .date, .string] := by
      cases fty <;> simp
    refine ⟨if gp then annotateRS rs .aggCount col else aggregateRS rs .aggCount col, ?_⟩
    simp only [hab, hschema, hlk, hty, if_pos]
    cases gp <;> rfl

/-- C7 witness: `sum` over the string field `name` is rejected; `count` over
the same field succeeds (here as a flat count of one row). -/
theorem C7_aggregate_type_rules_witness :
    FactQuery.applyAggregation { qPlain with aggregateBy := some ⟨"name", "sum"⟩ }
      false (.qs []) =
      .error (.incompatibleAggregateType "sum" [.number] "name" .string) ∧
    FactQuery.applyAggregation { qPlain with aggregateBy := some ⟨"name", "count"⟩ }
      false (.qs [{ id := 3, record := none, fields := [("doc.name", .vStr "a")] }]) =
      .ok (.flatDict (some (.vNum 1))) := by
  constructor
  · exact (C7_aggregate_type_rules { qPlain with aggregateBy := some ⟨"name", "sum"⟩ }
      false (.qs []) ⟨"name", "sum"⟩ "doc.name" .string rfl rfl).1 (Or.inl rfl) rfl
  · rfl

/-- C5: for a valid filter field, a raw value splitting into two or more
tokens on the `|` delimiter compiles (when every token coerces) to a
membership entry `column__in` holding exactly one coerced value per token,
and a single-token raw value compiles to an equality entry on the one
coerced value (`query.py` lines 244-258). -/
theorem C5_filter_predicate_shape (q : FactQuery) (field rawVal col : String)
    (fty : FieldType) (vs : List Value)
    (hschema : schemaLookup q.validFilters field = some (col, fty))
    (hp : parseAll fty (pySplit '|' rawVal) = some vs) :
    (2 ≤ (pySplit '|' rawVal).length →
      compileFieldFilter q field rawVal = .ok (some (col ++ "__in", .inArg col vs)) ∧
      vs.length = (pySplit '|' rawVal).length) ∧
    ((pySplit '|' rawVal).length = 1 →
      ∃ v, vs = [v] ∧ exposedTypeParse fty ((pySplit '|' rawVal).headD "") = some v ∧
        compileFieldFilter q field rawVal = .ok (some (col, .eqArg col v))) := by
  have hlen := parseAll_length fty (pySplit '|' rawVal) vs hp
  constructor
  · intro h2
    have hne : ¬(pySplit '|' rawVal).length = 1 := by omega
    constructor
    · unfold compileFieldFilter
      rw [hschema]
      simp only [hne, if_false, hp]
      have hpos : vs.length > 0 := by omega
      simp [hpos]
    · exact hlen
  · intro h1
    rcases List.length_eq_one.mp h1 with ⟨t, ht⟩
    rw [ht] at hp
    unfold parseAll at hp
    cases hv : exposedTypeParse fty t with
    | none => rw [hv] at hp; simp at hp
    | some v =>
      rw [hv] at hp
      simp only [parseAll, Option.some.injEq] at hp
      refine ⟨v, by simp [← hp], by simp [ht, hv], ?_⟩
      unfold compileFieldFilter
      rw [hschema]
      simp [ht, hv]

/-- C5 witness: over the number field `weight`, the raw value `70|75`
compiles to a two-element membership entry and the raw value `70` to an
equality entry on the coerced float. -/
theorem C5_filter_predicate_shape_witness :
    compileFieldFilter qPlain "weight" "70|75" =
      .ok (some ("doc.value__in", .inArg "doc.value" [.vNum 70, .vNum 75])) ∧
    compileFieldFilter qPlain "weight" "70" =
      .ok (some ("doc.value", .eqArg "doc.value" (.vNum 70))) := by
  constructor
  · exact ((C5_filter_predicate_shape qPlain "weight" "70|75" "doc.value" .number
      [.vNum 70, .vNum 75] (by decide) (by decide)).1 (by decide)).1
  · obtain ⟨v, hv, -, hc⟩ := (C5_filter_predicate_shape qPlain "weight" "70" "doc.value"
      .number [.vNum 70] (by decide) (by decide)).2 (by decide)
    injection hv with h1 h2
    rw [← h1] at hc
    exact hc

/-- C8: with grouping active (`group_by` truthy or `date_group` present), an
`order_by` whose field — after stripping one leading descending marker — is
neither the grouping field (for date grouping, the date field) nor the
aggregate field always fails with an order-field error: the
unknown-order-field raise when the stripped name is not in the schema, the
aggregation-restriction raise otherwise (`query.py` lines 359-378). -/
theorem C8_order_field_restriction (q : FactQuery) (rs : ResultSet) (ob : String)
    (hob : q.orderBy = some ob) (hne : ob ≠ "")
    (hgrp : optStrTruthy q.groupBy = true ∨ q.dateGroup.isSome = true)
    (hgroup : ∀ g, q.groupBy = some g → (if ob.take 1 = "-" then ob.drop 1 else ob) ≠ g)
    (hdate : ∀ dg, q.dateGroup = some dg →
      (if ob.take 1 = "-" then ob.drop 1 else ob) ≠ dg.field)
    (hagg : ∀ ab, q.aggregateBy = some ab →
      (if ob.take 1 = "-" then ob.drop 1 else ob) ≠ ab.field) :
    (schemaLookup q.validFilters (if ob.take 1 = "-" then ob.drop 1 else ob) = none →
      q.applyOrdering rs = .error (.invalidOrderField
        ("Invalid order by field for fact type " ++ q.modelName ++ ": " ++ ob))) ∧
    (∀ col fty₂,
      schemaLookup q.validFilters (if ob.take 1 = "-" then ob.drop 1 else ob) =
        some (col, fty₂) →
      q.applyOrdering rs = .error (.invalidOrderField
        ("OrderBy fields in aggregations may only refer to the grouping field or the aggregation field. Your field was: "
          ++ ob))) := by
  have htr : optStrTruthy q.orderBy = true := by
    rw [hob]
    simp only [optStrTruthy, decide_eq_true_eq]
    exact hne
  have haggm : (match q.aggregateBy with
      | some ab => decide ((if ob.take 1 = "-" then ob.drop 1 else ob) = ab.field)
      | none => false) = false := by
    cases hab : q.aggregateBy with
    | none => rfl
    | some ab => simpa using hagg ab hab
  constructor
  · intro hnone
    simp [FactQuery.applyOrdering, hob, optStrTruthy, hne, hnone]
  · intro col fty₂ hsome
    cases hgb : q.groupBy with
    | some g =>
      by_cases hgemp : g = ""
      · subst hgemp
        have hdgs : q.dateGroup.isSome = true := by
          rcases hgrp with hl | hr
          · rw [hgb] at hl
            simp [optStrTruthy] at hl
          · exact hr
        rcases Option.isSome_iff_exists.mp hdgs with ⟨dg, hdg⟩
        have hne₂ := hdate dg hdg
        simp [FactQuery.applyOrdering, hob, hsome, haggm, hgb, hdg, optStrTruthy, hne, hne₂]
      · have hne₂ := hgroup g hgb
        simp [FactQuery.applyOrdering, hob, hsome, haggm, hgb, optStrTruthy, hgemp, hne, hne₂]
    | none =>
      have hdgs : q.dateGroup.isSome = true := by
        rcases hgrp with hl | hr
        · rw [hgb] at hl
          simp [optStrTruthy] at hl
        · exact hr
      rcases Option.isSome_iff_exists.mp hdgs with ⟨dg, hdg⟩
      have hne₂ := hdate dg hdg
      simp [FactQuery.applyOrdering, hob, hsome, haggm, hgb, hdg, optStrTruthy, hne, hne₂]

/-- C8 witness: grouped on `weight` and aggregated by count of `weight`,
ordering by `-name` (neither the grouping field nor the aggregate field) is
rejected with the aggregation-restriction message. -/
theorem C8_order_field_restriction_witness :
    FactQuery.applyOrdering
      { qPlain with groupBy := some "weight", aggregateBy := some ⟨"weight", "count"⟩,
                    orderBy := some "-name" } (.groupedQS "doc.value" []) =
      .error (.invalidOrderField
        ("OrderBy fields in aggregations may only refer to the grouping field or the aggregation field. Your field was: "
          ++ "-name")) := by
  have h := (C8_order_field_restriction
    { qPlain with groupBy := some "weight", aggregateBy := some ⟨"weight", "count"⟩,
                  orderBy := some "-name" } (.groupedQS "doc.value" []) "-name" rfl
    (by decide) (Or.inl (by decide))
    (fun g hg => by
      injection hg with hg
      rw [← hg]
      decide)
    (fun dg hdg => by cases hdg)
    (fun ab hab => by
      injection hab with hab
      rw [← hab]
      decide)).2 "doc.name" .string (by decide)
  exact h

/-- A session with a limit whose request URL has no query string. -/
def qC2 : FactQuery :=
  { qPlain with limit := some 10, requestUrl := { uriW with query := "" } }

/-- An executed state: zero rows returned out of a pre-slice total of 20. -/
def stC2 : SessionState :=
  { initState with results := some (.qs []), trc := some 20 }

/-- C2 counterexample: the limit is set and the pre-slice total count (20)
exceeds offset plus the rows actually returned (0), yet `next_url()` returns
no next-page URL, because the original request URL has no query string
(`query.py` line 225 guards the whole reconstruction with
`if parsed_uri.query:`). -/
theorem C2_counterexample :
    optIntTruthy qC2.limit = true ∧
    trcGT stC2.trc (qC2.offset + ((ResultSet.qs []).count : Int)) = true ∧
    stC2.results = some (.qs []) ∧
    FactQuery.nextUrl qC2 stC2 = .ok none :=
  ⟨rfl, rfl, rfl, rfl⟩

/-- C2 amended: on an executed session, a next-page URL is returned iff a
limit was set, the pre-slice total count exceeds offset plus the rows
actually returned, AND the original request URL has a non-empty query
string; when returned, it is the original request URL rebuilt with the
offset query parameter replaced (or inserted) by `offset + limit`, every
other query parameter keeping its (last) value — duplicates are collapsed by
the `dict(parse_qsl(...))` step. -/
theorem C2_next_url_characterization (q : FactQuery) (st : SessionState) (r : ResultSet)
    (hres : st.results = some r) :
    (q.nextUrl st = .ok (
      if optIntTruthy q.limit && trcGT st.trc (q.offset + (r.count : Int))
          && decide (q.requestUrl.query ≠ "") then
        some (urlunparse { q.requestUrl with query := urlencode (dictInsert
          (dictOfPairs (parse_qsl q.requestUrl.query)) "offset"
          (toString (q.offset + q.limit.getD 0))) })
      else none)) ∧
    (∀ k v, k ≠ "offset" →
      dictLookup (dictInsert (dictOfPairs (parse_qsl q.requestUrl.query)) "offset" v) k =
        dictLookup (dictOfPairs (parse_qsl q.requestUrl.query)) k) ∧
    (∀ v, dictLookup (dictInsert (dictOfPairs (parse_qsl q.requestUrl.query)) "offset" v)
        "offset" = some v) := by
  refine ⟨?_, fun k v hk => dictLookup_dictInsert_ne _ _ _ _ hk,
    fun v => dictLookup_dictInsert_self _ _ v⟩
  unfold FactQuery.nextUrl
  rw [hres]
  by_cases h1 : (optIntTruthy q.limit && trcGT st.trc (q.offset + (r.count : Int))) = true
  · by_cases h2 : q.requestUrl.query ≠ ""
    · simp [h1, h2]
    · simp [h1, h2]
  · simp [h1]

/-- A session with a limit whose request URL query string is `limit=10`. -/
def qC2w : FactQuery := { qPlain with limit := some 10 }

/-- C2 witness: with a non-empty query string the amended characterization
produces the advanced-offset URL, and the untouched `limit` parameter keeps
its value through the offset insertion. -/
theorem C2_next_url_characterization_witness :
    FactQuery.nextUrl qC2w stC2 = .ok (some "http://host/r?limit=10&offset=10") ∧
    dictLookup (dictInsert (dictOfPairs (parse_qsl qC2w.requestUrl.query)) "offset" "10")
      "limit" = some "10" := by
  have h := C2_next_url_characterization qC2w stC2 (.qs []) rfl
  constructor
  · rw [h.1]
    rfl
  · exact (h.2.1 "limit" "10" (by decide)).trans (by rfl)

end Indivo
